import Mathlib

/-!
# Content-rotation state machine of the Twitter posting agent

A shallow embedding of `src/index.js`: the theme catalog `THEMES`, the persisted
cycle state, `initializeState`, `calculateNextState`, `getCycleProgress`,
`extractTweets` and the control flow of `exports.handler`.

Modelling conventions.

* JavaScript numbers that hold counters are modelled by `Int` (exact below `2 ^ 53`).
* A property that holds a string or `undefined` is an `Option String`
  (`none` is `undefined`).
* `new Date().toDateString()` is the explicit argument `today`.
* A thrown exception is the `Except.error` result.
-/

namespace TwitterAgent

deriving instance DecidableEq for Except

/-- Exceptions the embedded code can raise. -/
inductive JsError where
  | typeError
  | rejected
  deriving DecidableEq, Repr

/-- One entry of the `THEMES` object. -/
structure Theme where
  description : String
  subThemes : List String
  deriving DecidableEq, Repr

/-- The `THEMES` constant, as the ordered list of its own properties. -/
def THEMES : List (String × Theme) :=
  [ ("Theme1", ⟨"describe Theme1 content here.",
      ["Subtheme1", "Subtheme2", "Subtheme3", "Subtheme4", "Subtheme5"]⟩),
    ("Theme2", ⟨"describe Theme2 content here.",
      ["Subtheme6", "Subtheme7", "Subtheme8", "Subtheme9", "Subtheme10"]⟩),
    ("Theme3", ⟨"describe Theme3 content here.",
      ["Subtheme11", "Subtheme12", "Subtheme13", "Subtheme14", "Subtheme15"]⟩),
    ("Theme4", ⟨"describe Theme4 content here.",
      ["Subtheme16", "Subtheme17", "Subtheme18", "Subtheme19", "Subtheme20"]⟩),
    ("Theme5", ⟨"describe Theme5 content here.",
      ["Subtheme21", "Subtheme22", "Subtheme23", "Subtheme24", "Subtheme25"]⟩) ]

/-- The constant `TWEETS_PER_EXECUTION`. -/
def TWEETS_PER_EXECUTION : Int := 3

/-- The constant `TOTAL_TWEETS_PER_DAY`. -/
def TOTAL_TWEETS_PER_DAY : Int := 15

/-- The expression `Object.keys(THEMES)`. -/
def mainThemeKeys : List String := THEMES.map Prod.fst

/-- The expression `THEMES[k].subThemes`. It throws a `TypeError` when `THEMES[k]` is
`undefined`; for a name inherited from `Object.prototype` the value has no `subThemes`
and the method call made on it next throws the same error. -/
def subThemesOf (k : Option String) : Except JsError (List String) :=
  match k with
  | none => .error .typeError
  | some name =>
    match THEMES.lookup name with
    | none => .error .typeError
    | some th => .ok th.subThemes

/-- Scan of `Array.prototype.indexOf` from position `i`. -/
def indexOfFrom (x : String) : List String → Int → Int
  | [], _ => -1
  | y :: ys, i => if y = x then i else indexOfFrom x ys (i + 1)

/-- The method `Array.prototype.indexOf` on an array of strings: the first position
holding the value, `-1` when there is none (`undefined` is never found). -/
def indexOf (xs : List String) (x : Option String) : Int :=
  match x with
  | none => -1
  | some v => indexOfFrom v xs 0

/-- Array read `xs[i]`: `undefined` outside the array. -/
def arrayGet (xs : List String) (i : Int) : Option String :=
  if i < 0 then none else xs.get? i.toNat

/-- The persisted cycle state. `id` and `lastUpdated` are present on a record read
from the store and are carried along by an object spread. -/
structure CycleState where
  mainTheme : Option String
  subTheme : Option String
  tweetsPostedToday : Int
  currentSubThemeCount : Int
  currentDay : String
  lastUpdated : Option String
  id : Option String
  deriving DecidableEq, Repr

/-- The function `initializeState`; `now` is `new Date().toISOString()`. -/
def initializeState (today now : String) : Except JsError CycleState := do
  let mainThemes := mainThemeKeys
  let firstMainTheme := arrayGet mainThemes 0
  let subs ← subThemesOf firstMainTheme
  pure
    { mainTheme := firstMainTheme
      subTheme := arrayGet subs 0
      tweetsPostedToday := 0
      currentSubThemeCount := 0
      lastUpdated := some now
      currentDay := today
      id := none }

/-- The function `calculateNextState(currentState, tweetsPosted)`. -/
def calculateNextState (currentState : CycleState) (tweetsPosted : Int) (today : String) :
    Except JsError CycleState :=
  let mainTheme := currentState.mainTheme
  let subTheme := currentState.subTheme
  let tweetsPostedToday := currentState.tweetsPostedToday
  let currentSubThemeCount := currentState.currentSubThemeCount
  let newTweetsPostedToday :=
    if today ≠ currentState.currentDay then tweetsPosted else tweetsPostedToday + tweetsPosted
  let newSubThemeCount := currentSubThemeCount + tweetsPosted
  if newSubThemeCount ≥ 3 then
    let mainThemes := mainThemeKeys
    let currentMainThemeIndex := indexOf mainThemes mainTheme
    match subThemesOf mainTheme with
    | .error e => .error e
    | .ok currentSubThemes =>
      let currentSubThemeIndex := indexOf currentSubThemes subTheme
      if currentSubThemeIndex + 1 < (currentSubThemes.length : Int) then
        .ok
          { mainTheme := mainTheme
            subTheme := arrayGet currentSubThemes (currentSubThemeIndex + 1)
            tweetsPostedToday := newTweetsPostedToday
            currentSubThemeCount := 0
            currentDay := today
            lastUpdated := none
            id := none }
      else
        let nextMainThemeIndex := Int.tmod (currentMainThemeIndex + 1) (mainThemes.length : Int)
        let nextMainTheme := arrayGet mainThemes nextMainThemeIndex
        match subThemesOf nextMainTheme with
        | .error e => .error e
        | .ok nextSubThemes =>
          .ok
            { mainTheme := nextMainTheme
              subTheme := arrayGet nextSubThemes 0
              tweetsPostedToday := newTweetsPostedToday
              currentSubThemeCount := 0
              currentDay := today
              lastUpdated := none
              id := none }
  else
    .ok
      { currentState with
        tweetsPostedToday := newTweetsPostedToday
        currentSubThemeCount := newSubThemeCount
        currentDay := today }

/-- The value returned by `getCycleProgress`. -/
structure CycleProgress where
  currentPosition : String
  completedSubThemes : Int
  totalSubThemes : Int
  progressPercentage : Int
  tweetsInCurrentSubTheme : Int
  cycleDays : Int
  deriving DecidableEq, Repr

/-- The function `Math.round` on an exact quotient: the nearest integer, a half going up. -/
def mathRound (q : ℚ) : Int := Int.floor (q + 1 / 2)

/-- The function `Math.ceil` on an exact quotient. -/
def mathCeil (q : ℚ) : Int := Int.ceil q

/-- String conversion inside a template literal. -/
def templateText (v : Option String) : String := v.getD "undefined"

/-- The function `getCycleProgress(currentState)`. The quotients are exact rationals;
on the positions of the catalog the double-precision value rounds to the same integer. -/
def getCycleProgress (currentState : CycleState) : Except JsError CycleProgress :=
  let mainThemes := mainThemeKeys
  let currentMainThemeIndex := indexOf mainThemes currentState.mainTheme
  match subThemesOf currentState.mainTheme with
  | .error e => .error e
  | .ok currentSubThemes =>
    let currentSubThemeIndex := indexOf currentSubThemes currentState.subTheme
    let completedSubThemes := currentMainThemeIndex * 5 + currentSubThemeIndex
    let totalSubThemes : Int := (mainThemes.length : Int) * 5
    let progressPercentage :=
      mathRound ((completedSubThemes : ℚ) / (totalSubThemes : ℚ) * 100)
    .ok
      { currentPosition :=
          templateText currentState.mainTheme ++ " -> " ++ templateText currentState.subTheme
        completedSubThemes := completedSubThemes
        totalSubThemes := totalSubThemes
        progressPercentage := progressPercentage
        tweetsInCurrentSubTheme := currentState.currentSubThemeCount
        cycleDays := mathCeil ((totalSubThemes : ℚ) * 3 / 15) }

/-- Split of a text at every line feed, as `response.split('\n')` does. -/
def splitLines : List Char → List (List Char)
  | [] => [[]]
  | c :: cs =>
    match splitLines cs with
    | [] => [[c]]
    | l :: ls => if c = '\n' then [] :: l :: ls else (c :: l) :: ls

/-- The method `String.prototype.replace` with a string pattern: the first occurrence
of `pat` is replaced by `rep`. -/
def replaceFirst (pat rep : List Char) : List Char → List Char
  | [] => if pat = [] then rep else []
  | c :: cs =>
    if pat.isPrefixOf (c :: cs) then rep ++ (c :: cs).drop pat.length
    else c :: replaceFirst pat rep cs

/-- White space and line terminators removed by `String.prototype.trim`. -/
def isJsSpace (c : Char) : Bool :=
  let n := c.toNat
  n = 9 || n = 10 || n = 11 || n = 12 || n = 13 || n = 32 || n = 160 || n = 5760 ||
    (8192 ≤ n && n ≤ 8202) || n = 8232 || n = 8233 || n = 8239 || n = 8287 ||
    n = 12288 || n = 65279

/-- The method `String.prototype.trim`. -/
def jsTrim (cs : List Char) : List Char :=
  ((cs.dropWhile isJsSpace).reverse.dropWhile isJsSpace).reverse

/-- The property `length` of a string: its number of UTF-16 code units. -/
def jsLength (cs : List Char) : Nat :=
  (cs.map fun c => if c.toNat < 65536 then 1 else 2).sum

/-- The loop body of `extractTweets` over the remaining lines. -/
def extractLines : List (List Char) → List String
  | [] => []
  | line :: rest =>
    if "TWEET: ".data.isPrefixOf line then
      let tweet := jsTrim (replaceFirst "TWEET: ".data [] line)
      if tweet ≠ [] ∧ jsLength tweet ≤ 280 then String.mk tweet :: extractLines rest
      else extractLines rest
    else extractLines rest

/-- The function `extractTweets(response)`. -/
def extractTweets (response : String) : List String :=
  extractLines (splitLines response.data)

/-- The `for` loop of the handler over the tweets still to post. `postTweet i t` tells
whether the `i`-th call of `postTweet`, made with content `t`, resolves; a rejection is
thrown out of the loop. The result is the array `postedTweets` and whether the loop ended
without a throw. -/
def postLoop (postTweet : Nat → String → Bool) :
    Nat → List String → List String → List String × Bool
  | _, [], postedTweets => (postedTweets, true)
  | i, tweet :: rest, postedTweets =>
    if postTweet i tweet then postLoop postTweet (i + 1) rest (postedTweets ++ [tweet])
    else (postedTweets, false)

/-- The item that `updateState(state)` puts in the state table; `now` is
`new Date().toISOString()`. -/
def updateStateItem (state : CycleState) (now : String) : CycleState :=
  { state with
    id := some (state.id.getD "current_state")
    lastUpdated := some now }

/-- The body of a success response. -/
structure SuccessBody where
  tweets : List String
  newState : CycleState
  progress : CycleProgress
  deriving DecidableEq, Repr

/-- What one invocation of the handler did: the status code it returned, the tweets the
publishing API accepted (in order), the item written to the state table after the batch,
and the body of a success response. -/
structure HandlerResult where
  statusCode : Nat
  published : List String
  stored : Option CycleState
  body : Option SuccessBody
  deriving DecidableEq, Repr

/-- The `catch` branch of the handler, reached after `published` was posted and `stored`
was written. -/
def failure (published : List String) (stored : Option CycleState) : HandlerResult :=
  { statusCode := 500, published := published, stored := stored, body := none }

/-- The function `exports.handler`, from the state returned by `getCurrentState()`
(which never throws; the record it may create when the table is empty is written before
the body modelled here runs). `aiText` is the outcome of reading the samples and the
credentials, of filtering the samples and of the request to the generation API: the
response text, or the exception raised on the way. `postTweet` is the publishing oracle
of `postLoop`, `putOk` tells whether the write of `updateState` succeeds, `today` and
`now` are the two readings of the clock. The pacing delays are not modelled. -/
def handler (state : CycleState) (aiText : Except JsError String)
    (postTweet : Nat → String → Bool) (putOk : Bool) (today now : String) : HandlerResult :=
  match getCycleProgress state with
  | .error _ => failure [] none
  | .ok _ =>
    match aiText with
    | .error _ => failure [] none
    | .ok text =>
      let tweets := extractTweets text
      match postLoop postTweet 0 tweets [] with
      | (postedTweets, false) => failure postedTweets none
      | (postedTweets, true) =>
        match calculateNextState state TWEETS_PER_EXECUTION today with
        | .error _ => failure postedTweets none
        | .ok newState =>
          if putOk then
            match getCycleProgress newState with
            | .error _ => failure postedTweets (some (updateStateItem newState now))
            | .ok newProgress =>
              { statusCode := 200
                published := postedTweets
                stored := some (updateStateItem newState now)
                body := some { tweets := postedTweets, newState := newState,
                               progress := newProgress } }
          else failure postedTweets none

/-- The state invariant of the data model: `mainTheme` is a key of `THEMES` and
`subTheme` is a member of `THEMES[mainTheme].subThemes`. -/
def ValidState (s : CycleState) : Prop :=
  ∃ m th st, s.mainTheme = some m ∧ THEMES.lookup m = some th ∧ s.subTheme = some st ∧
    st ∈ th.subThemes

/-- The value is a string that is a key of `THEMES`. -/
def IsThemeKey (k : Option String) : Prop :=
  ∃ m, k = some m ∧ m ∈ mainThemeKeys

/-- The cursor `(mainTheme, subTheme)` at position `k` of the cycle, in catalog order. -/
def cursorAt (k : Nat) : Option String × Option String :=
  match THEMES.get? (k / 5) with
  | none => (none, none)
  | some (name, th) => (some name, th.subThemes.get? (k % 5))

/-- Successive calls of `calculateNextState`, one per `(tweetsPosted, today)` step, each
on the state the previous call returned. -/
def runTransitions (s : CycleState) : List (Int × String) → Except JsError CycleState
  | [] => .ok s
  | (p, day) :: rest =>
    match calculateNextState s p day with
    | .error e => .error e
    | .ok next => runTransitions next rest

/-- The states visited by successive calls of `calculateNextState`, the starting state
first; the run ends at a call that throws. -/
def trajectory (s : CycleState) : List (Int × String) → List CycleState
  | [] => [s]
  | (p, day) :: rest =>
    match calculateNextState s p day with
    | .error _ => [s]
    | .ok next => s :: trajectory next rest

/-- The transition from `a` to `b` moves the cursor from the final subtheme back to the
initial position. -/
def Wraps (a b : CycleState) : Prop :=
  a.mainTheme = some "Theme5" ∧ a.subTheme = some "Subtheme25" ∧
    b.mainTheme = some "Theme1" ∧ b.subTheme = some "Subtheme1"

/-- Both states have a progress report and the percentage of `a` is at most that of `b`. -/
def PercentageLe (a b : CycleState) : Prop :=
  ∃ pa pb, getCycleProgress a = .ok pa ∧ getCycleProgress b = .ok pb ∧
    pa.progressPercentage ≤ pb.progressPercentage

/-! ## Catalog lemmas -/

theorem lookup_index (l : List (String × Theme)) {m : String} {th : Theme}
    (h : l.lookup m = some th) : ∃ j, j < l.length ∧ l.get? j = some (m, th) := by
  induction l with
  | nil => simp [List.lookup] at h
  | cons a l ih =>
    obtain ⟨k, v⟩ := a
    simp only [List.lookup] at h
    split at h
    · rename_i heq
      have hk : m = k := by simpa using heq
      have hv : v = th := by simpa using h
      exact ⟨0, by simp, by simp [hk, hv]⟩
    · obtain ⟨j, hj, hg⟩ := ih h
      exact ⟨j + 1, by simpa using hj, by simpa using hg⟩

theorem lookup_none (l : List (String × Theme)) {m : String}
    (h : m ∉ l.map Prod.fst) : l.lookup m = none := by
  induction l with
  | nil => rfl
  | cons a l ih =>
    obtain ⟨k, v⟩ := a
    simp only [List.map_cons, List.mem_cons, not_or] at h
    simp only [List.lookup]
    have hne : (m == k) = false := by simpa using h.1
    rw [hne]
    exact ih h.2

theorem key_index {m : String} (h : m ∈ mainThemeKeys) :
    ∃ j, j < 5 ∧ mainThemeKeys.get? j = some m := by
  obtain ⟨j, hj⟩ := List.mem_iff_get?.mp h
  refine ⟨j, ?_, hj⟩
  by_contra hcon
  have hlen : mainThemeKeys.length ≤ j := by
    have : mainThemeKeys.length = 5 := rfl
    omega
  rw [List.get?_eq_none.mpr hlen] at hj
  exact absurd hj (by simp)

theorem subThemesOf_not_key {k : Option String} (h : ¬ IsThemeKey k) :
    subThemesOf k = .error .typeError := by
  cases k with
  | none => rfl
  | some m =>
    have hm : m ∉ THEMES.map Prod.fst := fun hmem => h ⟨m, rfl, hmem⟩
    simp only [subThemesOf, lookup_none THEMES hm]

theorem valid_position {s : CycleState} (hv : ValidState s) :
    ∃ k, k < 25 ∧ s.mainTheme = (cursorAt k).1 ∧ s.subTheme = (cursorAt k).2 := by
  obtain ⟨m, th, st, hm, hth, hs, hmem⟩ := hv
  obtain ⟨j, hj, hg⟩ := lookup_index THEMES hth
  obtain ⟨i, hi⟩ := List.mem_iff_get?.mp hmem
  have hj5 : j < 5 := hj
  have hi5 : i < 5 := by
    have : i < th.subThemes.length := by
      by_contra hcon
      rw [List.get?_eq_none.mpr (by omega)] at hi
      exact absurd hi (by simp)
    interval_cases j <;> simp [THEMES] at hg <;> obtain ⟨-, rfl⟩ := hg <;> exact this
  refine ⟨5 * j + i, by omega, ?_, ?_⟩
  · rw [hm]
    interval_cases j <;> simp [THEMES] at hg <;> obtain ⟨rfl, -⟩ := hg <;>
      interval_cases i <;> rfl
  · rw [hs, ← hi]
    interval_cases j <;> simp [THEMES] at hg <;> obtain ⟨-, rfl⟩ := hg <;>
      interval_cases i <;> rfl

theorem position_valid {s : CycleState} {k : Nat} (hk : k < 25)
    (hm : s.mainTheme = (cursorAt k).1) (hs : s.subTheme = (cursorAt k).2) :
    ValidState s := by
  unfold ValidState
  rw [hm, hs]
  interval_cases k <;> exact ⟨_, _, _, rfl, rfl, rfl, by decide⟩

/-! ## The two branches of `calculateNextState` -/

theorem stay_below (s : CycleState) (p : Int) (t : String)
    (hc : s.currentSubThemeCount + p < 3) :
    calculateNextState s p t = .ok
      { s with
        tweetsPostedToday := if t ≠ s.currentDay then p else s.tweetsPostedToday + p
        currentSubThemeCount := s.currentSubThemeCount + p
        currentDay := t } := by
  unfold calculateNextState
  have hn : ¬ (s.currentSubThemeCount + p ≥ 3) := by omega
  simp only [hn, if_false]

theorem rotate_at (k : Nat) (hk : k < 25) (s : CycleState) (p : Int) (t : String)
    (hm : s.mainTheme = (cursorAt k).1) (hs : s.subTheme = (cursorAt k).2)
    (hc : 3 ≤ s.currentSubThemeCount + p) :
    calculateNextState s p t = .ok
      { mainTheme := (cursorAt ((k + 1) % 25)).1
        subTheme := (cursorAt ((k + 1) % 25)).2
        tweetsPostedToday := if t ≠ s.currentDay then p else s.tweetsPostedToday + p
        currentSubThemeCount := 0
        currentDay := t
        lastUpdated := none
        id := none } := by
  unfold calculateNextState
  simp only [ge_iff_le, hc, if_true, hm, hs]
  interval_cases k <;> rfl

theorem step_key (s : CycleState) (p : Int) (t : String) (hkey : IsThemeKey s.mainTheme) :
    ∃ r, calculateNextState s p t = .ok r ∧ IsThemeKey r.mainTheme := by
  by_cases hc : 3 ≤ s.currentSubThemeCount + p
  · obtain ⟨m, hm, hmem⟩ := hkey
    obtain ⟨j, hj, hg⟩ := key_index hmem
    unfold calculateNextState
    simp only [ge_iff_le, hc, if_true, hm]
    interval_cases j <;> simp [mainThemeKeys, THEMES] at hg <;> subst hg
    all_goals
      split
      · rename_i e heq
        cases heq
      · rename_i subs heq
        split
        · exact ⟨_, rfl, _, rfl, by decide⟩
        · cases heq
          split
          · rename_i e2 heq2
            cases heq2
          · exact ⟨_, rfl, _, rfl, by decide⟩
  · exact ⟨_, stay_below s p t (by omega), hkey⟩

/-! ## Progress report -/

theorem mathRound_catalog (c : Int) : mathRound ((c : ℚ) / ((25 : Int) : ℚ) * 100) = 4 * c := by
  unfold mathRound
  have h : (c : ℚ) / ((25 : Int) : ℚ) * 100 + 1 / 2 = (((4 * c : Int)) : ℚ) + 1 / 2 := by
    push_cast
    ring
  rw [h, Int.floor_int_add]
  have h2 : Int.floor ((1 : ℚ) / 2) = 0 := by
    rw [Int.floor_eq_iff]
    norm_num
  rw [h2, add_zero]

theorem progress_at (k : Nat) (hk : k < 25) (s : CycleState)
    (hm : s.mainTheme = (cursorAt k).1) (hs : s.subTheme = (cursorAt k).2) :
    ∃ a, getCycleProgress s = .ok a ∧ a.completedSubThemes = (k : Int) ∧
      a.progressPercentage = 4 * (k : Int) := by
  unfold getCycleProgress
  simp only [hm, hs]
  interval_cases k <;> exact ⟨_, rfl, rfl, mathRound_catalog _⟩

theorem progress_key (s : CycleState) (hkey : IsThemeKey s.mainTheme) :
    ∃ a, getCycleProgress s = .ok a := by
  obtain ⟨m, hm, hmem⟩ := hkey
  obtain ⟨j, hj, hg⟩ := key_index hmem
  unfold getCycleProgress
  simp only [hm]
  interval_cases j <;> simp [mainThemeKeys, THEMES] at hg <;> subst hg <;> exact ⟨_, rfl⟩

/-! ## The posting loop -/

theorem postLoop_first_failure (post : Nat → String → Bool) (tweets : List String) :
    ∀ (i0 : Nat) (acc : List String),
      (∃ j, ∃ h : j < tweets.length, post (i0 + j) (tweets.get ⟨j, h⟩) = false) →
      ∃ k, ∃ h : k < tweets.length, post (i0 + k) (tweets.get ⟨k, h⟩) = false ∧
        (∀ j, ∀ h2 : j < tweets.length, j < k → post (i0 + j) (tweets.get ⟨j, h2⟩) = true) ∧
        postLoop post i0 tweets acc = (acc ++ tweets.take k, false) := by
  induction tweets with
  | nil =>
    intro i0 acc hex
    obtain ⟨j, h, -⟩ := hex
    exact absurd h (by simp)
  | cons t rest ih =>
    intro i0 acc hex
    by_cases hp : post i0 t = true
    · have hex2 : ∃ j, ∃ h : j < rest.length, post (i0 + 1 + j) (rest.get ⟨j, h⟩) = false := by
        obtain ⟨j, h, hf⟩ := hex
        cases j with
        | zero =>
          simp only [List.get_eq_getElem, List.getElem_cons_zero, Nat.add_zero] at hf
          rw [hp] at hf
          exact absurd hf (by simp)
        | succ j =>
          refine ⟨j, by simpa using h, ?_⟩
          have : i0 + 1 + j = i0 + (j + 1) := by omega
          rw [this]
          simpa using hf
      obtain ⟨k, hk, hf, hbefore, hloop⟩ := ih (i0 + 1) (acc ++ [t]) hex2
      refine ⟨k + 1, by simpa using hk, ?_, ?_, ?_⟩
      · have : i0 + (k + 1) = i0 + 1 + k := by omega
        rw [this]
        simpa using hf
      · intro j h2 hjk
        cases j with
        | zero => simpa using hp
        | succ j =>
          have h3 := hbefore j (by simpa using h2) (by omega)
          have : i0 + (j + 1) = i0 + 1 + j := by omega
          rw [this]
          simpa using h3
      · simp only [postLoop, hp, if_true, hloop, List.take_succ_cons, List.append_assoc,
          List.singleton_append]
    · have hp2 : post i0 t = false := by simpa using hp
      refine ⟨0, by simp, by simpa using hp2, ?_, ?_⟩
      · intro j _ hj
        exact absurd hj (by omega)
      · simp [postLoop, hp2]

theorem postLoop_all_ok (post : Nat → String → Bool) (tweets : List String) :
    ∀ (i0 : Nat) (acc : List String),
      (∀ j, ∀ h : j < tweets.length, post (i0 + j) (tweets.get ⟨j, h⟩) = true) →
      postLoop post i0 tweets acc = (acc ++ tweets, true) := by
  induction tweets with
  | nil =>
    intro i0 acc _
    simp [postLoop]
  | cons t rest ih =>
    intro i0 acc hall
    have hp : post i0 t = true := by simpa using hall 0 (by simp)
    have hrest : ∀ j, ∀ h : j < rest.length, post (i0 + 1 + j) (rest.get ⟨j, h⟩) = true := by
      intro j h
      have h3 := hall (j + 1) (by simpa using h)
      have : i0 + 1 + j = i0 + (j + 1) := by omega
      rw [this]
      simpa using h3
    simp only [postLoop, hp, if_true, ih (i0 + 1) (acc ++ [t]) hrest, List.append_assoc,
      List.singleton_append]

/-! ## Runs of transitions -/

theorem step_valid (s : CycleState) (p : Int) (t : String) (hv : ValidState s)
    (hc : 0 ≤ s.currentSubThemeCount) (hp : 0 < p) :
    ∃ r, calculateNextState s p t = .ok r ∧ ValidState r ∧ 0 ≤ r.currentSubThemeCount ∧
      r.currentSubThemeCount < 3 := by
  by_cases hrot : 3 ≤ s.currentSubThemeCount + p
  · obtain ⟨k, hk, hm, hs⟩ := valid_position hv
    refine ⟨_, rotate_at k hk s p t hm hs hrot, ?_, le_refl _, by norm_num⟩
    exact position_valid (Nat.mod_lt _ (by norm_num)) rfl rfl
  · have hlt : s.currentSubThemeCount + p < 3 := by omega
    refine ⟨_, stay_below s p t hlt, ?_, ?_, hlt⟩
    · exact hv
    · show 0 ≤ s.currentSubThemeCount + p
      omega

theorem run_valid (steps : List (Int × String)) :
    ∀ s : CycleState, ValidState s → 0 ≤ s.currentSubThemeCount →
      s.currentSubThemeCount < 3 → (∀ x ∈ steps, 0 < x.1) →
      ∃ r, runTransitions s steps = .ok r ∧ ValidState r ∧ 0 ≤ r.currentSubThemeCount ∧
        r.currentSubThemeCount < 3 := by
  induction steps with
  | nil =>
    intro s hv h0 h3 _
    exact ⟨s, rfl, hv, h0, h3⟩
  | cons x rest ih =>
    intro s hv h0 _ hpos
    obtain ⟨p, day⟩ := x
    obtain ⟨r, hr, hrv, hr0, hr3⟩ := step_valid s p day hv h0 (hpos (p, day) (by simp))
    obtain ⟨r2, hr2, hfin⟩ := ih r hrv hr0 hr3 (fun y hy => hpos y (by simp [hy]))
    exact ⟨r2, by simp only [runTransitions, hr, hr2], hfin⟩

theorem run_threes (days : List String) :
    ∀ (s : CycleState) (k : Nat), k < 25 → s.mainTheme = (cursorAt k).1 →
      s.subTheme = (cursorAt k).2 → s.currentSubThemeCount = 0 →
      ∃ r, runTransitions s (days.map fun d => ((3 : Int), d)) = .ok r ∧
        r.mainTheme = (cursorAt ((k + days.length) % 25)).1 ∧
        r.subTheme = (cursorAt ((k + days.length) % 25)).2 ∧ r.currentSubThemeCount = 0 := by
  induction days with
  | nil =>
    intro s k hk hm hs hc
    refine ⟨s, rfl, ?_, ?_, hc⟩
    · simpa [Nat.mod_eq_of_lt hk] using hm
    · simpa [Nat.mod_eq_of_lt hk] using hs
  | cons d rest ih =>
    intro s k hk hm hs hc
    have hstep := rotate_at k hk s 3 d hm hs (by rw [hc]; norm_num)
    obtain ⟨r, hr, hrm, hrs, hrc⟩ :=
      ih ({ mainTheme := (cursorAt ((k + 1) % 25)).1
            subTheme := (cursorAt ((k + 1) % 25)).2
            tweetsPostedToday := if d ≠ s.currentDay then 3 else s.tweetsPostedToday + 3
            currentSubThemeCount := 0
            currentDay := d
            lastUpdated := none
            id := none } : CycleState)
        ((k + 1) % 25) (Nat.mod_lt _ (by norm_num)) rfl rfl rfl
    refine ⟨r, ?_, ?_, ?_, hrc⟩
    · simp only [List.map_cons, runTransitions, hstep, hr]
    · rw [hrm]
      congr 2
      simp only [List.length_cons]
      omega
    · rw [hrs]
      congr 2
      simp only [List.length_cons]
      omega

/-! ## The handler on a batch that is published in full -/

theorem handler_batch_published (state : CycleState) (text : String)
    (postTweet : Nat → String → Bool) (today now : String)
    (hkey : IsThemeKey state.mainTheme)
    (hall : ∀ j, ∀ h : j < (extractTweets text).length,
      postTweet j ((extractTweets text).get ⟨j, h⟩) = true) :
    ∃ newState newProgress,
      calculateNextState state TWEETS_PER_EXECUTION today = .ok newState ∧
      getCycleProgress newState = .ok newProgress ∧
      handler state (.ok text) postTweet true today now =
        { statusCode := 200
          published := extractTweets text
          stored := some (updateStateItem newState now)
          body := some { tweets := extractTweets text, newState := newState,
                         progress := newProgress } } := by
  obtain ⟨progress, hprog⟩ := progress_key state hkey
  obtain ⟨newState, hnew, hnewkey⟩ := step_key state TWEETS_PER_EXECUTION today hkey
  obtain ⟨newProgress, hnp⟩ := progress_key newState hnewkey
  have hall0 : ∀ j, ∀ h : j < (extractTweets text).length,
      postTweet (0 + j) ((extractTweets text).get ⟨j, h⟩) = true := by
    simpa using hall
  have hloop := postLoop_all_ok postTweet (extractTweets text) 0 [] hall0
  refine ⟨newState, newProgress, hnew, hnp, ?_⟩
  simp only [handler, hprog, hloop, hnew, hnp, List.nil_append, if_true]

theorem trajectory_head (s : CycleState) (steps : List (Int × String)) :
    ∃ tl, trajectory s steps = s :: tl := by
  cases steps with
  | nil => exact ⟨[], rfl⟩
  | cons x rest =>
    obtain ⟨p, day⟩ := x
    simp only [trajectory]
    split
    · exact ⟨[], rfl⟩
    · exact ⟨_, rfl⟩

theorem step_progress (s : CycleState) (p : Int) (t : String) (hv : ValidState s) :
    ∃ r, calculateNextState s p t = .ok r ∧ ValidState r ∧ (¬ Wraps s r → PercentageLe s r) := by
  obtain ⟨k, hk, hm, hs⟩ := valid_position hv
  obtain ⟨a, ha, -, hpa⟩ := progress_at k hk s hm hs
  by_cases hrot : 3 ≤ s.currentSubThemeCount + p
  · refine ⟨_, rotate_at k hk s p t hm hs hrot, position_valid (Nat.mod_lt _ (by norm_num)) rfl rfl,
      ?_⟩
    intro hw
    obtain ⟨b, hb, -, hpb⟩ :=
      progress_at ((k + 1) % 25) (Nat.mod_lt _ (by norm_num))
        ({ mainTheme := (cursorAt ((k + 1) % 25)).1
           subTheme := (cursorAt ((k + 1) % 25)).2
           tweetsPostedToday := if t ≠ s.currentDay then p else s.tweetsPostedToday + p
           currentSubThemeCount := 0
           currentDay := t
           lastUpdated := none
           id := none } : CycleState) rfl rfl
    refine ⟨a, b, ha, hb, ?_⟩
    rw [hpa, hpb]
    by_cases hlast : k = 24
    · subst hlast
      exact absurd ⟨hm, hs, rfl, rfl⟩ hw
    · have hmod : (k + 1) % 25 = k + 1 := Nat.mod_eq_of_lt (by omega)
      rw [hmod]
      push_cast
      omega
  · have hlt : s.currentSubThemeCount + p < 3 := by omega
    refine ⟨_, stay_below s p t hlt, hv, ?_⟩
    intro _
    obtain ⟨b, hb, -, hpb⟩ :=
      progress_at k hk
        ({ s with
           tweetsPostedToday := if t ≠ s.currentDay then p else s.tweetsPostedToday + p
           currentSubThemeCount := s.currentSubThemeCount + p
           currentDay := t } : CycleState) hm hs
    exact ⟨a, b, ha, hb, by rw [hpa, hpb]⟩

theorem trajectory_chain (steps : List (Int × String)) :
    ∀ s : CycleState, ValidState s →
      List.Chain' (fun a b => ¬ Wraps a b) (trajectory s steps) →
      List.Chain' PercentageLe (trajectory s steps) := by
  induction steps with
  | nil =>
    intro s _ _
    simp [trajectory]
  | cons x rest ih =>
    intro s hv hch
    obtain ⟨p, day⟩ := x
    obtain ⟨r, hr, hrv, hle⟩ := step_progress s p day hv
    obtain ⟨tl, htl⟩ := trajectory_head r rest
    have hih := ih r hrv
    simp only [trajectory, hr] at hch ⊢
    rw [htl] at hch hih ⊢
    rw [List.chain'_cons] at hch ⊢
    exact ⟨hle hch.1, hih hch.2⟩

theorem trajectory_length (steps : List (Int × String)) :
    ∀ s : CycleState, ValidState s → (trajectory s steps).length = steps.length + 1 := by
  induction steps with
  | nil =>
    intro s _
    rfl
  | cons x rest ih =>
    intro s hv
    obtain ⟨p, day⟩ := x
    obtain ⟨r, hr, hrv, -⟩ := step_progress s p day hv
    simp only [trajectory, hr, List.length_cons, ih r hrv]

/-! ## Claims -/

/-- C1: the handler does not pass the number of published tweets to the transition. On a
response holding two tweets, both published, the invocation succeeds with two tweets
posted, yet the state it stores is the one computed with `TWEETS_PER_EXECUTION = 3`
(the cursor rotates to `Subtheme2` and the daily tally is 3), whereas
`calculateNextState` called with the posted count 2 stays on `Subtheme1` with tenure
count 2. -/
theorem handler_stores_batch_size_transition :
    extractTweets "TWEET: first\nTWEET: second" = ["first", "second"] ∧
    (handler ⟨some "Theme1", some "Subtheme1", 0, 0, "Mon", some "T0", some "current_state"⟩
      (.ok "TWEET: first\nTWEET: second") (fun _ _ => true) true "Mon" "T1").statusCode = 200 ∧
    (handler ⟨some "Theme1", some "Subtheme1", 0, 0, "Mon", some "T0", some "current_state"⟩
      (.ok "TWEET: first\nTWEET: second") (fun _ _ => true) true "Mon" "T1").published
        = ["first", "second"] ∧
    (handler ⟨some "Theme1", some "Subtheme1", 0, 0, "Mon", some "T0", some "current_state"⟩
      (.ok "TWEET: first\nTWEET: second") (fun _ _ => true) true "Mon" "T1").stored
        = some ⟨some "Theme1", some "Subtheme2", 3, 0, "Mon", some "T1", some "current_state"⟩ ∧
    calculateNextState
      ⟨some "Theme1", some "Subtheme1", 0, 0, "Mon", some "T0", some "current_state"⟩ 3 "Mon"
        = .ok ⟨some "Theme1", some "Subtheme2", 3, 0, "Mon", none, none⟩ ∧
    calculateNextState
      ⟨some "Theme1", some "Subtheme1", 0, 0, "Mon", some "T0", some "current_state"⟩ 2 "Mon"
        = .ok ⟨some "Theme1", some "Subtheme1", 2, 2, "Mon", some "T0", some "current_state"⟩ := by
  refine ⟨by decide, by decide, by decide, by decide, by decide, by decide⟩

/-- C2 (as stated, refuted): a state whose `subTheme` is not in the list of its main theme
is not rejected: at the threshold `calculateNextState` returns a state on the first
subtheme of the same main theme; and below the threshold a state with an unknown
`mainTheme` is returned with its counters advanced. -/
theorem calculateNextState_returns_on_invalid_state :
    ¬ ValidState ⟨some "Theme1", some "Elsewhere", 0, 0, "Mon", none, none⟩ ∧
    calculateNextState ⟨some "Theme1", some "Elsewhere", 0, 0, "Mon", none, none⟩ 3 "Mon"
      = .ok ⟨some "Theme1", some "Subtheme1", 3, 0, "Mon", none, none⟩ ∧
    ¬ ValidState ⟨some "Nowhere", some "Subtheme1", 0, 0, "Mon", none, none⟩ ∧
    calculateNextState ⟨some "Nowhere", some "Subtheme1", 0, 0, "Mon", none, none⟩ 1 "Mon"
      = .ok ⟨some "Nowhere", some "Subtheme1", 1, 1, "Mon", none, none⟩ := by
  refine ⟨?_, by decide, ?_, by decide⟩
  · rintro ⟨m, th, st, hm, hth, hs, hmem⟩
    obtain ⟨k, hk, hkm, hks⟩ := valid_position ⟨m, th, st, hm, hth, hs, hmem⟩
    simp only at hkm hks
    interval_cases k <;> exact absurd hks (by decide)
  · rintro ⟨m, th, st, hm, hth, hs, hmem⟩
    obtain ⟨k, hk, hkm, hks⟩ := valid_position ⟨m, th, st, hm, hth, hs, hmem⟩
    simp only at hkm hks
    interval_cases k <;> exact absurd hkm (by decide)

/-- C2 (amended): `calculateNextState` throws exactly when the tenure count reaches the
threshold (`currentSubThemeCount + tweetsPosted >= 3`) and `mainTheme` is not a key of
`THEMES`, and what it throws is a `TypeError`; in every other case, a `subTheme` foreign
to the main theme included, it returns a state. -/
theorem calculateNextState_throws_iff (s : CycleState) (postedCount : Int) (today : String)
    (e : JsError) :
    calculateNextState s postedCount today = .error e ↔
      (e = .typeError ∧ 3 ≤ s.currentSubThemeCount + postedCount ∧ ¬ IsThemeKey s.mainTheme) := by
  constructor
  · intro h
    by_cases hrot : 3 ≤ s.currentSubThemeCount + postedCount
    · by_cases hkey : IsThemeKey s.mainTheme
      · obtain ⟨r, hr, -⟩ := step_key s postedCount today hkey
        rw [hr] at h
        cases h
      · refine ⟨?_, hrot, hkey⟩
        unfold calculateNextState at h
        simp only [ge_iff_le, hrot, if_true, subThemesOf_not_key hkey] at h
        cases h
        rfl
    · rw [stay_below s postedCount today (by omega)] at h
      cases h
  · rintro ⟨rfl, hrot, hkey⟩
    unfold calculateNextState
    simp only [ge_iff_le, hrot, if_true, subThemesOf_not_key hkey]

/-- C3: rotation within a main theme. For a state whose `mainTheme` is the key `m` of
`THEMES` and whose `subTheme` is at index `i` of `THEMES[m].subThemes`, `i` not the last
index, a positive `postedCount` with `currentSubThemeCount + postedCount >= 3` yields a
state with the same `mainTheme`, the subtheme at index `i + 1`, and tenure count 0. -/
theorem rotation_within_main_theme (s : CycleState) (postedCount : Int) (today : String)
    (m : String) (th : Theme) (i : Nat)
    (hm : s.mainTheme = some m) (hth : THEMES.lookup m = some th)
    (hi : th.subThemes.get? i = s.subTheme) (hlast : i + 1 < th.subThemes.length)
    (_hp : 0 < postedCount) (hc : 3 ≤ s.currentSubThemeCount + postedCount) :
    ∃ r next, calculateNextState s postedCount today = .ok r ∧ r.mainTheme = s.mainTheme ∧
      th.subThemes.get? (i + 1) = some next ∧ r.subTheme = some next ∧
      r.currentSubThemeCount = 0 := by
  obtain ⟨j, hj, hg⟩ := lookup_index THEMES hth
  have hj5 : j < 5 := hj
  have hi4 : i < 4 := by
    interval_cases j <;> simp [THEMES] at hg <;> obtain ⟨-, rfl⟩ := hg <;>
      simp at hlast <;> omega
  have hpos : s.mainTheme = (cursorAt (5 * j + i)).1 ∧ s.subTheme = (cursorAt (5 * j + i)).2 := by
    rw [hm, ← hi]
    interval_cases j <;> simp [THEMES] at hg <;> obtain ⟨rfl, rfl⟩ := hg <;>
      interval_cases i <;> exact ⟨rfl, rfl⟩
  have hstep := rotate_at (5 * j + i) (by omega) s postedCount today hpos.1 hpos.2 hc
  have hmod : (5 * j + i + 1) % 25 = 5 * j + (i + 1) := by
    rw [Nat.mod_eq_of_lt (by omega)]
    omega
  rw [hmod] at hstep
  refine ⟨_, (th.subThemes.get ⟨i + 1, hlast⟩), hstep, ?_, ?_, ?_, rfl⟩
  · rw [hm]
    interval_cases j <;> simp [THEMES] at hg <;> obtain ⟨rfl, rfl⟩ := hg <;>
      interval_cases i <;> rfl
  · exact List.get?_eq_get hlast
  · show (cursorAt (5 * j + (i + 1))).2 = _
    rw [← List.get?_eq_get hlast]
    interval_cases j <;> simp [THEMES] at hg <;> obtain ⟨rfl, rfl⟩ := hg <;>
      interval_cases i <;> rfl

/-- Witness of C3: from `(Theme2, Subtheme7)` with tenure count 2, one more tweet. -/
theorem rotation_within_main_theme_witness :
    ∃ r next,
      calculateNextState ⟨some "Theme2", some "Subtheme7", 5, 2, "Mon", none, none⟩ 1 "Tue"
        = .ok r ∧
      r.mainTheme = some "Theme2" ∧
      ["Subtheme6", "Subtheme7", "Subtheme8", "Subtheme9", "Subtheme10"].get? (1 + 1)
        = some next ∧
      r.subTheme = some next ∧ r.currentSubThemeCount = 0 :=
  rotation_within_main_theme ⟨some "Theme2", some "Subtheme7", 5, 2, "Mon", none, none⟩ 1 "Tue"
    "Theme2"
    ⟨"describe Theme2 content here.",
      ["Subtheme6", "Subtheme7", "Subtheme8", "Subtheme9", "Subtheme10"]⟩ 1
    rfl rfl rfl (by decide) (by decide) (by decide)

/-- C4: rotation across main themes. For a state whose `mainTheme` is at index `mi` of
`Object.keys(THEMES)` and whose `subTheme` is the last entry of that theme, a positive
`postedCount` with `currentSubThemeCount + postedCount >= 3` yields the main theme at
index `(mi + 1) mod 5`, that theme's first subtheme, and tenure count 0. -/
theorem rotation_across_main_themes (s : CycleState) (postedCount : Int) (today : String)
    (mi : Nat) (name : String) (th : Theme)
    (hkey : mainThemeKeys.get? mi = some name) (hm : s.mainTheme = some name)
    (hth : THEMES.lookup name = some th) (hlast : s.subTheme = th.subThemes.getLast?)
    (_hp : 0 < postedCount) (hc : 3 ≤ s.currentSubThemeCount + postedCount) :
    ∃ r next nth first, calculateNextState s postedCount today = .ok r ∧
      mainThemeKeys.get? ((mi + 1) % 5) = some next ∧ r.mainTheme = some next ∧
      THEMES.lookup next = some nth ∧ nth.subThemes.head? = some first ∧
      r.subTheme = some first ∧ r.currentSubThemeCount = 0 := by
  obtain ⟨j, hj, hg⟩ := lookup_index THEMES hth
  have hj5 : j < 5 := hj
  have hmi : mi < 5 := by
    by_contra hcon
    have hlen : mainThemeKeys.length ≤ mi := by
      have : mainThemeKeys.length = 5 := rfl
      omega
    rw [List.get?_eq_none.mpr hlen] at hkey
    exact absurd hkey (by simp)
  have hpos : j = mi ∧ s.mainTheme = (cursorAt (5 * mi + 4)).1 ∧
      s.subTheme = (cursorAt (5 * mi + 4)).2 := by
    rw [hm, hlast]
    interval_cases j <;> simp [THEMES] at hg <;> obtain ⟨rfl, rfl⟩ := hg <;>
      interval_cases mi <;> simp [mainThemeKeys, THEMES] at hkey <;> exact ⟨rfl, rfl, rfl⟩
  have hstep := rotate_at (5 * mi + 4) (by omega) s postedCount today hpos.2.1 hpos.2.2 hc
  interval_cases mi <;> exact ⟨_, _, _, _, hstep, rfl, rfl, rfl, rfl, rfl, rfl⟩

/-- Witness of C4: from `(Theme5, Subtheme25)` the cursor wraps to `(Theme1, Subtheme1)`. -/
theorem rotation_across_main_themes_witness :
    ∃ r next nth first,
      calculateNextState ⟨some "Theme5", some "Subtheme25", 9, 2, "Mon", none, none⟩ 1 "Mon"
        = .ok r ∧
      mainThemeKeys.get? ((4 + 1) % 5) = some next ∧ r.mainTheme = some next ∧
      THEMES.lookup next = some nth ∧ nth.subThemes.head? = some first ∧
      r.subTheme = some first ∧ r.currentSubThemeCount = 0 :=
  rotation_across_main_themes ⟨some "Theme5", some "Subtheme25", 9, 2, "Mon", none, none⟩ 1
    "Mon" 4 "Theme5"
    ⟨"describe Theme5 content here.",
      ["Subtheme21", "Subtheme22", "Subtheme23", "Subtheme24", "Subtheme25"]⟩
    rfl rfl rfl rfl (by decide) (by decide)

/-- C5: full-cycle closure. From any state at `(Theme1, Subtheme1)` with tenure count 0,
such as the one `initializeState` returns, 25 successive calls of `calculateNextState` with
`tweetsPosted = 3`, on any sequence of days, all return and end at `(Theme1, Subtheme1)`
with tenure count 0. -/
theorem full_cycle_closure (s0 : CycleState) (days : List String)
    (hm : s0.mainTheme = some "Theme1") (hs : s0.subTheme = some "Subtheme1")
    (hc : s0.currentSubThemeCount = 0) (hlen : days.length = 25) :
    (∃ r, runTransitions s0 (days.map fun d => ((3 : Int), d)) = .ok r ∧
      r.mainTheme = some "Theme1" ∧ r.subTheme = some "Subtheme1" ∧
      r.currentSubThemeCount = 0) ∧
    (∀ today now : String, ∃ i, initializeState today now = .ok i ∧
      i.mainTheme = some "Theme1" ∧ i.subTheme = some "Subtheme1" ∧
      i.currentSubThemeCount = 0) := by
  constructor
  · obtain ⟨r, hr, hrm, hrs, hrc⟩ := run_threes days s0 0 (by norm_num) hm hs hc
    rw [hlen] at hrm hrs
    exact ⟨r, hr, hrm, hrs, hrc⟩
  · intro today now
    exact ⟨_, rfl, rfl, rfl, rfl⟩

/-- Witness of C5: the state written by the table setup, 25 batches on one day. -/
theorem full_cycle_closure_witness :
    (∃ r, runTransitions ⟨some "Theme1", some "Subtheme1", 0, 0, "Mon", some "T0",
        some "current_state"⟩ ((List.replicate 25 "Mon").map fun d => ((3 : Int), d)) = .ok r ∧
      r.mainTheme = some "Theme1" ∧ r.subTheme = some "Subtheme1" ∧
      r.currentSubThemeCount = 0) ∧
    (∀ today now : String, ∃ i, initializeState today now = .ok i ∧
      i.mainTheme = some "Theme1" ∧ i.subTheme = some "Subtheme1" ∧
      i.currentSubThemeCount = 0) :=
  full_cycle_closure ⟨some "Theme1", some "Subtheme1", 0, 0, "Mon", some "T0",
    some "current_state"⟩ (List.replicate 25 "Mon") rfl rfl rfl (by decide)

/-- C6: no rotation below the threshold. For a valid state and a positive `postedCount`
with `currentSubThemeCount + postedCount < 3`, on any day, the result keeps `mainTheme`
and `subTheme` and has tenure count `currentSubThemeCount + postedCount`. -/
theorem no_rotation_below_threshold (s : CycleState) (postedCount : Int) (today : String)
    (_hv : ValidState s) (_hp : 0 < postedCount)
    (hc : s.currentSubThemeCount + postedCount < 3) :
    ∃ r, calculateNextState s postedCount today = .ok r ∧ r.mainTheme = s.mainTheme ∧
      r.subTheme = s.subTheme ∧
      r.currentSubThemeCount = s.currentSubThemeCount + postedCount :=
  ⟨_, stay_below s postedCount today hc, rfl, rfl, rfl⟩

/-- Witness of C6: one tweet on `(Theme3, Subtheme12)` with tenure count 1. -/
theorem no_rotation_below_threshold_witness :
    ∃ r, calculateNextState ⟨some "Theme3", some "Subtheme12", 4, 1, "Mon", none, none⟩ 1 "Tue"
        = .ok r ∧
      r.mainTheme = some "Theme3" ∧ r.subTheme = some "Subtheme12" ∧
      r.currentSubThemeCount = 1 + 1 :=
  no_rotation_below_threshold ⟨some "Theme3", some "Subtheme12", 4, 1, "Mon", none, none⟩ 1
    "Tue"
    ⟨"Theme3",
      ⟨"describe Theme3 content here.",
        ["Subtheme11", "Subtheme12", "Subtheme13", "Subtheme14", "Subtheme15"]⟩,
      "Subtheme12", rfl, rfl, rfl, by decide⟩
    (by decide) (by decide)

/-- C7: day-rollover independence. For every state, posted count and two days, the two
results agree on everything but `tweetsPostedToday` and `currentDay` (both throw, or both
return states with the same `mainTheme`, `subTheme`, `currentSubThemeCount`, `lastUpdated`
and `id`); and a returned state has `tweetsPostedToday` equal to the previous tally plus
the posted count when the day equals `currentDay`, to the posted count otherwise, and has
`currentDay` stamped to the day. -/
theorem day_rollover_independence (s : CycleState) (postedCount : Int) (t1 t2 : String) :
    (calculateNextState s postedCount t1).map
        (fun r => (r.mainTheme, r.subTheme, r.currentSubThemeCount, r.lastUpdated, r.id)) =
      (calculateNextState s postedCount t2).map
        (fun r => (r.mainTheme, r.subTheme, r.currentSubThemeCount, r.lastUpdated, r.id)) ∧
    (∀ r, calculateNextState s postedCount t1 = .ok r →
      r.tweetsPostedToday =
          (if t1 = s.currentDay then s.tweetsPostedToday + postedCount else postedCount) ∧
        r.currentDay = t1) := by
  constructor
  · unfold calculateNextState
    simp only
    split
    · split
      · rfl
      · split
        · rfl
        · split <;> rfl
    · rfl
  · intro r h
    unfold calculateNextState at h
    simp only [ne_eq, ite_not] at h
    split at h
    · split at h
      · cases h
      · split at h
        · cases h
          exact ⟨rfl, rfl⟩
        · split at h
          · cases h
          · cases h
            exact ⟨rfl, rfl⟩
    · cases h
      exact ⟨rfl, rfl⟩

/-- C8: a publish failure mid-batch leaves the state alone. When the handler reaches the
batch (its first progress report and the generation succeeded) and `postTweet` fails on
some item, then for the first failing item `k`: exactly the `k` items before it are
published and none after it, no state is written to the store, and the invocation
returns status code 500 without a success body. -/
theorem publish_failure_keeps_state (state : CycleState) (text : String)
    (postTweet : Nat → String → Bool) (putOk : Bool) (today now : String)
    (hreach : ∃ progress, getCycleProgress state = .ok progress)
    (hfail : ∃ j, ∃ h : j < (extractTweets text).length,
      postTweet j ((extractTweets text).get ⟨j, h⟩) = false) :
    ∃ k, ∃ h : k < (extractTweets text).length,
      postTweet k ((extractTweets text).get ⟨k, h⟩) = false ∧
      (∀ j, ∀ h2 : j < (extractTweets text).length, j < k →
        postTweet j ((extractTweets text).get ⟨j, h2⟩) = true) ∧
      (handler state (.ok text) postTweet putOk today now).published
        = (extractTweets text).take k ∧
      (handler state (.ok text) postTweet putOk today now).stored = none ∧
      (handler state (.ok text) postTweet putOk today now).statusCode = 500 ∧
      (handler state (.ok text) postTweet putOk today now).body = none := by
  obtain ⟨progress, hprog⟩ := hreach
  have hfail0 : ∃ j, ∃ h : j < (extractTweets text).length,
      postTweet (0 + j) ((extractTweets text).get ⟨j, h⟩) = false := by
    simpa using hfail
  obtain ⟨k, hk, hf, hbefore, hloop⟩ :=
    postLoop_first_failure postTweet (extractTweets text) 0 [] hfail0
  have hres : handler state (.ok text) postTweet putOk today now
      = failure ((extractTweets text).take k) none := by
    simp only [handler, hprog, hloop, List.nil_append]
  refine ⟨k, hk, by simpa using hf, ?_, ?_, ?_, ?_, ?_⟩
  · intro j h2 hjk
    simpa using hbefore j h2 hjk
  · rw [hres]; rfl
  · rw [hres]; rfl
  · rw [hres]; rfl
  · rw [hres]; rfl

/-- Witness of C8: three tweets generated, the second publish call fails. -/
theorem publish_failure_keeps_state_witness :
    ∃ k, ∃ h : k < (extractTweets "TWEET: one\nTWEET: two\nTWEET: three").length,
      (fun (i : Nat) (_ : String) => decide (i ≠ 1)) k
        ((extractTweets "TWEET: one\nTWEET: two\nTWEET: three").get ⟨k, h⟩) = false ∧
      (∀ j, ∀ h2 : j < (extractTweets "TWEET: one\nTWEET: two\nTWEET: three").length, j < k →
        (fun (i : Nat) (_ : String) => decide (i ≠ 1)) j
          ((extractTweets "TWEET: one\nTWEET: two\nTWEET: three").get ⟨j, h2⟩) = true) ∧
      (handler ⟨some "Theme1", some "Subtheme1", 0, 0, "Mon", some "T0", some "current_state"⟩
        (.ok "TWEET: one\nTWEET: two\nTWEET: three")
        (fun (i : Nat) (_ : String) => decide (i ≠ 1)) true "Mon" "T1").published
        = (extractTweets "TWEET: one\nTWEET: two\nTWEET: three").take k ∧
      (handler ⟨some "Theme1", some "Subtheme1", 0, 0, "Mon", some "T0", some "current_state"⟩
        (.ok "TWEET: one\nTWEET: two\nTWEET: three")
        (fun (i : Nat) (_ : String) => decide (i ≠ 1)) true "Mon" "T1").stored = none ∧
      (handler ⟨some "Theme1", some "Subtheme1", 0, 0, "Mon", some "T0", some "current_state"⟩
        (.ok "TWEET: one\nTWEET: two\nTWEET: three")
        (fun (i : Nat) (_ : String) => decide (i ≠ 1)) true "Mon" "T1").statusCode = 500 ∧
      (handler ⟨some "Theme1", some "Subtheme1", 0, 0, "Mon", some "T0", some "current_state"⟩
        (.ok "TWEET: one\nTWEET: two\nTWEET: three")
        (fun (i : Nat) (_ : String) => decide (i ≠ 1)) true "Mon" "T1").body = none :=
  publish_failure_keeps_state
    ⟨some "Theme1", some "Subtheme1", 0, 0, "Mon", some "T0", some "current_state"⟩
    "TWEET: one\nTWEET: two\nTWEET: three" (fun (i : Nat) (_ : String) => decide (i ≠ 1)) true
    "Mon" "T1" ⟨_, rfl⟩ ⟨1, by decide, by decide⟩

/-- C9: the progress percentage is non-decreasing under non-wrapping transitions. For a
valid state, a positive `postedCount` and any day, `calculateNextState` returns a state;
unless the transition moves the cursor from `(Theme5, Subtheme25)` back to
`(Theme1, Subtheme1)`, both states have a progress report and the percentage of the new
state is at least that of the old one. Hence along every run of transitions from the
state in which no step wraps, the percentage is non-decreasing from each visited state
to the next. -/
theorem progress_percentage_non_decreasing (s : CycleState) (postedCount : Int)
    (today : String) (hv : ValidState s) (_hp : 0 < postedCount) :
    (∃ r, calculateNextState s postedCount today = .ok r ∧
      (¬ Wraps s r → PercentageLe s r)) ∧
    (∀ steps : List (Int × String), (∀ x ∈ steps, 0 < x.1) →
      (trajectory s steps).length = steps.length + 1 ∧
      (List.Chain' (fun a b => ¬ Wraps a b) (trajectory s steps) →
        List.Chain' PercentageLe (trajectory s steps))) := by
  constructor
  · obtain ⟨r, hr, -, hle⟩ := step_progress s postedCount today hv
    exact ⟨r, hr, hle⟩
  · intro steps _
    exact ⟨trajectory_length steps s hv, trajectory_chain steps s hv⟩

/-- Witness of C9: the rotation from `(Theme1, Subtheme5)` to `(Theme2, Subtheme6)`. -/
theorem progress_percentage_non_decreasing_witness :
    (∃ r, calculateNextState ⟨some "Theme1", some "Subtheme5", 0, 0, "Mon", none, none⟩ 3 "Mon"
        = .ok r ∧
      (¬ Wraps ⟨some "Theme1", some "Subtheme5", 0, 0, "Mon", none, none⟩ r →
        PercentageLe ⟨some "Theme1", some "Subtheme5", 0, 0, "Mon", none, none⟩ r)) ∧
    (∀ steps : List (Int × String), (∀ x ∈ steps, 0 < x.1) →
      (trajectory ⟨some "Theme1", some "Subtheme5", 0, 0, "Mon", none, none⟩ steps).length
        = steps.length + 1 ∧
      (List.Chain' (fun a b => ¬ Wraps a b)
          (trajectory ⟨some "Theme1", some "Subtheme5", 0, 0, "Mon", none, none⟩ steps) →
        List.Chain' PercentageLe
          (trajectory ⟨some "Theme1", some "Subtheme5", 0, 0, "Mon", none, none⟩ steps))) :=
  progress_percentage_non_decreasing
    ⟨some "Theme1", some "Subtheme5", 0, 0, "Mon", none, none⟩ 3 "Mon"
    ⟨"Theme1",
      ⟨"describe Theme1 content here.",
        ["Subtheme1", "Subtheme2", "Subtheme3", "Subtheme4", "Subtheme5"]⟩,
      "Subtheme5", rfl, rfl, rfl, by decide⟩
    (by decide)

/-- C10: `calculateNextState` preserves the state invariant. For a valid state with a
non-negative tenure count, a positive `postedCount` and any day, the result is a valid
state with `0 <= currentSubThemeCount < 3`. So the state `initializeState` returns is
valid with tenure count 0, and every run of transitions with positive posted counts from
it returns a valid state with tenure count in that range. -/
theorem calculateNextState_preserves_invariant (s : CycleState) (postedCount : Int)
    (today : String) (hv : ValidState s) (hc : 0 ≤ s.currentSubThemeCount)
    (hp : 0 < postedCount) :
    (∃ r, calculateNextState s postedCount today = .ok r ∧ ValidState r ∧
      0 ≤ r.currentSubThemeCount ∧ r.currentSubThemeCount < 3) ∧
    (∀ (day now : String) (steps : List (Int × String)), (∀ x ∈ steps, 0 < x.1) →
      ∃ i r, initializeState day now = .ok i ∧ ValidState i ∧ i.currentSubThemeCount = 0 ∧
        runTransitions i steps = .ok r ∧ ValidState r ∧
        0 ≤ r.currentSubThemeCount ∧ r.currentSubThemeCount < 3) := by
  constructor
  · exact step_valid s postedCount today hv hc hp
  · intro day now steps hpos
    have hi : ValidState
        ({ mainTheme := some "Theme1", subTheme := some "Subtheme1", tweetsPostedToday := 0,
           currentSubThemeCount := 0, currentDay := day, lastUpdated := some now,
           id := none } : CycleState) :=
      position_valid (k := 0) (by norm_num) rfl rfl
    obtain ⟨r, hr, hfin⟩ := run_valid steps _ hi (le_refl _) (by norm_num) hpos
    exact ⟨_, r, rfl, hi, rfl, hr, hfin⟩

/-- Witness of C10: an overshooting batch on the last subtheme of `Theme5`. -/
theorem calculateNextState_preserves_invariant_witness :
    (∃ r, calculateNextState ⟨some "Theme5", some "Subtheme25", 7, 1, "Mon", none, none⟩ 4 "Tue"
        = .ok r ∧ ValidState r ∧ 0 ≤ r.currentSubThemeCount ∧ r.currentSubThemeCount < 3) ∧
    (∀ (day now : String) (steps : List (Int × String)), (∀ x ∈ steps, 0 < x.1) →
      ∃ i r, initializeState day now = .ok i ∧ ValidState i ∧ i.currentSubThemeCount = 0 ∧
        runTransitions i steps = .ok r ∧ ValidState r ∧
        0 ≤ r.currentSubThemeCount ∧ r.currentSubThemeCount < 3) :=
  calculateNextState_preserves_invariant
    ⟨some "Theme5", some "Subtheme25", 7, 1, "Mon", none, none⟩ 4 "Tue"
    ⟨"Theme5",
      ⟨"describe Theme5 content here.",
        ["Subtheme21", "Subtheme22", "Subtheme23", "Subtheme24", "Subtheme25"]⟩,
      "Subtheme25", rfl, rfl, rfl, by decide⟩
    (by decide) (by decide)

end TwitterAgent
